import Mathlib

/-!
Verification of the block-ledger service (Fastify + Postgres, `src/index.ts`).

The development shallowly embeds the three HTTP handlers — `POST /blocks`,
`GET /balance/:address`, `POST /rollback` — as pure functions over an explicit
store state (the `blocks` and `balances` tables).  Machine integers are
modelled as `Int`/`Nat`; SHA-256 (used by the block-identity check) is
implemented executably over `Nat` with explicit reduction modulo 2^32.
-/

namespace LedgerService

/-! ## SHA-256, executable, over `Nat` words reduced mod 2^32.

Mirrors Node's `createHash('sha256')` with `update` on UTF-8 strings followed
by `digest('hex')`: incremental `update` calls hash the concatenation of the
inputs, so the embedding hashes one byte list. -/

/-- Reduce to a 32-bit word. -/
def w32 (n : Nat) : Nat := n % 4294967296

/-- Right rotation of a 32-bit word. -/
def rotr (s x : Nat) : Nat := w32 ((x >>> s) ||| (x <<< (32 - s)))

/-- Bitwise complement within 32 bits. -/
def bnot32 (x : Nat) : Nat := x ^^^ 4294967295

def ch (x y z : Nat) : Nat := (x &&& y) ^^^ (bnot32 x &&& z)

def maj (x y z : Nat) : Nat := (x &&& y) ^^^ (x &&& z) ^^^ (y &&& z)

def bigSigma0 (x : Nat) : Nat := rotr 2 x ^^^ rotr 13 x ^^^ rotr 22 x

def bigSigma1 (x : Nat) : Nat := rotr 6 x ^^^ rotr 11 x ^^^ rotr 25 x

def smallSigma0 (x : Nat) : Nat := rotr 7 x ^^^ rotr 18 x ^^^ (x >>> 3)

def smallSigma1 (x : Nat) : Nat := rotr 17 x ^^^ rotr 19 x ^^^ (x >>> 10)

/-- The 64 SHA-256 round constants (FIPS 180-4 §4.2.2), in decimal. -/
def K : List Nat :=
  [1116352408, 1899447441, 3049323471, 3921009573, 961987163,
   1508970993, 2453635748, 2870763221, 3624381080, 310598401,
   607225278, 1426881987, 1925078388, 2162078206, 2614888103,
   3248222580, 3835390401, 4022224774, 264347078, 604807628,
   770255983, 1249150122, 1555081692, 1996064986, 2554220882,
   2821834349, 2952996808, 3210313671, 3336571891, 3584528711,
   113926993, 338241895, 666307205, 773529912, 1294757372,
   1396182291, 1695183700, 1986661051, 2177026350, 2456956037,
   2730485921, 2820302411, 3259730800, 3345764771, 3516065817,
   3600352804, 4094571909, 275423344, 430227734, 506948616,
   659060556, 883997877, 958139571, 1322822218, 1537002063,
   1747873779, 1955562222, 2024104815, 2227730452, 2361852424,
   2428436474, 2756734187, 3204031479, 3329325298]

/-- The eight initial hash words (FIPS 180-4 §5.3.3), in decimal. -/
def H0 : List Nat :=
  [1779033703, 3144134277, 1013904242, 2773480762, 1359893119,
   2600822924, 528734635, 1541459225]

/-- `k` bytes of `n`, big-endian. -/
def beBytes (k n : Nat) : List Nat :=
  (List.range k).map (fun i => (n >>> (8 * (k - 1 - i))) % 256)

/-- SHA-256 padding: append `0x80`, zero bytes to 56 mod 64, then the 64-bit
big-endian bit length. -/
def padMessage (msg : List Nat) : List Nat :=
  let len := msg.length
  let z := (120 - ((len + 1) % 64)) % 64
  msg ++ [0x80] ++ List.replicate z 0 ++ beBytes 8 (len * 8)

/-- Split a byte list into 64-byte chunks (structural recursion on a fuel
bound so that the kernel can evaluate it). -/
def chunksF : Nat → List Nat → List (List Nat)
  | 0, _ => []
  | _, [] => []
  | fuel + 1, l => l.take 64 :: chunksF fuel (l.drop 64)

/-- Split a byte list into 64-byte chunks. -/
def chunks (l : List Nat) : List (List Nat) := chunksF l.length l

/-- Group bytes into 32-bit big-endian words. -/
def toWords : List Nat → List Nat
  | b0 :: b1 :: b2 :: b3 :: rest => ((b0 <<< 24) ||| (b1 <<< 16) ||| (b2 <<< 8) ||| b3) :: toWords rest
  | _ => []

/-- Extend 16 message words to the 64-entry message schedule. -/
def schedule (w16 : List Nat) : Array Nat :=
  (List.range 48).foldl (fun a i =>
    let t := i + 16
    let s0 := smallSigma0 (a.getD (t - 15) 0)
    let s1 := smallSigma1 (a.getD (t - 2) 0)
    a.push (w32 (a.getD (t - 16) 0 + s0 + a.getD (t - 7) 0 + s1))) w16.toArray

/-- Working state of the compression loop. -/
structure Hash8 where
  a : Nat
  b : Nat
  c : Nat
  d : Nat
  e : Nat
  f : Nat
  g : Nat
  hh : Nat

/-- One SHA-256 round. -/
def round (st : Hash8) (k w : Nat) : Hash8 :=
  let t1 := w32 (st.hh + bigSigma1 st.e + ch st.e st.f st.g + k + w)
  let t2 := w32 (bigSigma0 st.a + maj st.a st.b st.c)
  ⟨w32 (t1 + t2), st.a, st.b, st.c, w32 (st.d + t1), st.e, st.f, st.g⟩

/-- Compress one 64-byte chunk into the running hash value. -/
def compress (h : List Nat) (chunk : List Nat) : List Nat :=
  let ws := schedule (toWords chunk)
  let s0 : Hash8 := ⟨h.getD 0 0, h.getD 1 0, h.getD 2 0, h.getD 3 0,
                     h.getD 4 0, h.getD 5 0, h.getD 6 0, h.getD 7 0⟩
  let fin := (List.range 64).foldl (fun s i => round s (K.getD i 0) (ws.getD i 0)) s0
  [w32 (h.getD 0 0 + fin.a), w32 (h.getD 1 0 + fin.b), w32 (h.getD 2 0 + fin.c),
   w32 (h.getD 3 0 + fin.d), w32 (h.getD 4 0 + fin.e), w32 (h.getD 5 0 + fin.f),
   w32 (h.getD 6 0 + fin.g), w32 (h.getD 7 0 + fin.hh)]

/-- SHA-256 of a byte list, as eight 32-bit words. -/
def sha256Words (msg : List Nat) : List Nat :=
  (chunks (padMessage msg)).foldl compress H0

def hexDigit (n : Nat) : Char :=
  if n < 10 then Char.ofNat (48 + n) else Char.ofNat (87 + n)

/-- Lowercase hex rendering of a 32-bit word. -/
def wordHex (n : Nat) : String :=
  String.mk ((List.range 8).map (fun i => hexDigit ((n >>> (4 * (7 - i))) % 16)))

/-- UTF-8 encoding of one code point. -/
def utf8Char (c : Nat) : List Nat :=
  if c < 0x80 then [c]
  else if c < 0x800 then [0xc0 ||| (c >>> 6), 0x80 ||| (c &&& 0x3f)]
  else if c < 0x10000 then
    [0xe0 ||| (c >>> 12), 0x80 ||| ((c >>> 6) &&& 0x3f), 0x80 ||| (c &&& 0x3f)]
  else
    [0xf0 ||| (c >>> 18), 0x80 ||| ((c >>> 12) &&& 0x3f),
     0x80 ||| ((c >>> 6) &&& 0x3f), 0x80 ||| (c &&& 0x3f)]

/-- UTF-8 bytes of a string (Node hashes strings as UTF-8). -/
def utf8Bytes (s : String) : List Nat :=
  (s.data.map (fun c => utf8Char c.toNat)).flatten

/-- `sha256hex s` is Node's `createHash('sha256').update(s).digest('hex')`. -/
def sha256hex (s : String) : String :=
  ((sha256Words (utf8Bytes s)).map wordHex).foldl (fun a b => a ++ b) ""

/-! ## Data model (`src/index.ts` lines 11-31).

The TypeScript `Input` type declares only `txId`/`index`, but the handlers read
`input.address` and `input.value` from the raw JSON body (lines 95, 113-114,
150-151), and the spec's data model (§3) gives inputs those fields; the
embedding models the runtime record the handlers actually consume. -/

structure Output where
  address : String
  value : Int
deriving DecidableEq, Repr

structure TxInput where
  txId : String
  index : Int
  address : String
  value : Int
deriving DecidableEq, Repr

structure Transaction where
  id : String
  inputs : List TxInput
  outputs : List Output
deriving DecidableEq, Repr

structure Block where
  id : String
  height : Int
  transactions : List Transaction
deriving DecidableEq, Repr

/-- The persistent store state: the `blocks` table (each row keeps the full
block as its `data` payload) and the `balances` table (address primary key,
integer balance). -/
structure Ledger where
  blocks : List Block
  balances : List (String × Int)
deriving DecidableEq, Repr

/-- State after `createTables` on a fresh database: both tables empty. -/
def initLedger : Ledger := ⟨[], []⟩

/-- Responses sent by the block/rollback handlers: `reply.send({status: s})`
or `reply.status(code).send({error: e})`. -/
inductive Resp where
  | ok (status : String)
  | err (code : Nat) (error : String)
deriving DecidableEq, Repr

/-- Responses of `GET /balance/:address`. -/
inductive BalanceResp where
  | balance (n : Int)
  | notFound (code : Nat) (error : String)
deriving DecidableEq, Repr

/-! ## Queries issued by the handlers -/

/-- `SELECT MAX(height) as height FROM blocks`: `NULL` on an empty table. -/
def maxHeight : List Block → Option Int
  | [] => none
  | b :: bs => some ((bs.map Block.height).foldl max b.height)

/-- JavaScript `x || 0` on the MAX result (line 89): `null` becomes 0 and the
number 0 (falsy) also becomes 0. -/
def jsOrZero : Option Int → Int
  | none => 0
  | some h => if h == 0 then 0 else h

/-- `currentHeight` as computed at lines 88-89. -/
def currentHeight (st : Ledger) : Int := jsOrZero (maxHeight st.blocks)

/-- `tx.inputs.reduce((sum, input) => sum + input.value, 0)` (line 95). -/
def inputSum (tx : Transaction) : Int :=
  tx.inputs.foldl (fun s i => s + i.value) 0

/-- `tx.outputs.reduce((sum, output) => sum + output.value, 0)` (line 96). -/
def outputSum (tx : Transaction) : Int :=
  tx.outputs.foldl (fun s o => s + o.value) 0

/-- The conservation loop (lines 94-100): scans transactions in order and
stops at the first whose input sum differs from its output sum. -/
def conservationOk : List Transaction → Bool
  | [] => true
  | tx :: txs => if inputSum tx != outputSum tx then false else conservationOk txs

/-- The running digest of lines 102-105: seeded with `block.height.toString()`
and updated in order with each transaction's `id`; incremental `update` hashes
the concatenation, so the digest input is the fold of string appends. -/
def calculatedId (b : Block) : String :=
  sha256hex (b.transactions.foldl (fun acc tx => acc ++ tx.id) (toString b.height))

/-- One balance-delta statement:
`UPDATE balances SET balance = balance - $1 WHERE address = $2` (debit) or
`... balance + $1 ...` (credit).  With `address` the primary key, the update
touches the unique matching row and touches nothing when no row exists. -/
inductive Delta where
  | debit (address : String) (value : Int)
  | credit (address : String) (value : Int)
deriving DecidableEq, Repr

/-- Effect of one UPDATE statement on the `balances` table. -/
def applyDelta (bal : List (String × Int)) : Delta → List (String × Int)
  | .debit a v => bal.map (fun p => if p.1 = a then (p.1, p.2 - v) else p)
  | .credit a v => bal.map (fun p => if p.1 = a then (p.1, p.2 + v) else p)

/-- The UPDATE statements issued for one transaction: all inputs (debits),
then all outputs (credits), in order (lines 112-119 and 149-156). -/
def txDeltas (tx : Transaction) : List Delta :=
  tx.inputs.map (fun i => Delta.debit i.address i.value)
    ++ tx.outputs.map (fun o => Delta.credit o.address o.value)

/-- The UPDATE statements issued for one block, transaction by transaction. -/
def blockDeltas (b : Block) : List Delta :=
  (b.transactions.map txDeltas).flatten

/-- Replaying a block's deltas against the balances table. -/
def applyBlockBalances (bal : List (String × Int)) (b : Block) : List (String × Int) :=
  (blockDeltas b).foldl applyDelta bal

/-! ## `POST /blocks` (lines 85-128) -/

/-- The `POST /blocks` handler run against store state `st` with body `b`:
height check, conservation loop, identity check, then the transactional
apply (balance deltas followed by the chain INSERT) and the success reply. -/
def submitBlock (st : Ledger) (b : Block) : Ledger × Resp :=
  if b.height != currentHeight st + 1 then
    (st, .err 400 "Invalid block height")
  else if !conservationOk b.transactions then
    (st, .err 400 "Input and output sums do not match")
  else if b.id != calculatedId b then
    (st, .err 400 "Invalid block ID")
  else
    ({ blocks := st.blocks ++ [b], balances := applyBlockBalances st.balances b },
     .ok "Block added")

/-! ## `GET /balance/:address` (lines 130-137) -/

/-- `SELECT balance FROM balances WHERE address = $1` on the primary-keyed
table, then 404 on zero rows. -/
def getBalance (st : Ledger) (address : String) : BalanceResp :=
  match st.balances.find? (fun p => p.1 == address) with
  | none => .notFound 404 "Address not found"
  | some p => .balance p.2

/-! ## `POST /rollback` (lines 139-164) -/

/-- Insertion into a height-sorted list, for `ORDER BY height`. -/
def insertByHeight (b : Block) : List Block → List Block
  | [] => [b]
  | c :: cs => if b.height ≤ c.height then b :: c :: cs else c :: insertByHeight b cs

/-- `SELECT data FROM blocks ORDER BY height`. -/
def sortByHeight (l : List Block) : List Block :=
  l.foldr insertByHeight []

/-- The `POST /rollback` handler with query parameter `height`:
`DELETE FROM blocks WHERE height > $1`, `TRUNCATE balances`, then replay of
the remaining blocks in ascending height order, all committed together. -/
def rollback (st : Ledger) (h : Int) : Ledger × Resp :=
  let kept := st.blocks.filter (fun b => !(b.height > h))
  let replayed := (sortByHeight kept).foldl applyBlockBalances []
  ({ blocks := kept, balances := replayed }, .ok "Rollback completed")

/-! ## Reachable store states

Operations available through the service, starting from a fresh database:
any block submission (accepted or rejected) and any rollback; the balance
query is read-only. -/

inductive Reachable : Ledger → Prop
  | init : Reachable initLedger
  | submit (st : Ledger) (b : Block) : Reachable st → Reachable (submitBlock st b).1
  | rollbackTo (st : Ledger) (h : Int) : Reachable st → Reachable (rollback st h).1

/-! ## Spec-side balance fold

For the rollback-correctness comparison the spec's own description of the
expected balances is formalised separately from the code. -/

/-- Modelled from the spec: "balances computed by folding only B1..Bh's
deltas from an all-zero start" — inputs subtract, outputs add, so one
address's expected balance is the sum over the retained blocks of its
credited output values minus its debited input values. -/
def specFoldBalance (bs : List Block) (address : String) : Int :=
  (bs.map (fun b =>
    (b.transactions.map (fun tx =>
      ((tx.outputs.filter (fun o => o.address == address)).map Output.value).sum
        - ((tx.inputs.filter (fun i => i.address == address)).map TxInput.value).sum)).sum)).sum

/-! ## Apply path with store faults (lines 110-125)

The `BEGIN`/`COMMIT`/`ROLLBACK` pair of the apply path is modelled with the
store's transaction semantics: the statements between `BEGIN` and `COMMIT`
act on a working copy of the committed state and only `COMMIT` publishes it;
the `catch` branch issues `ROLLBACK` (discarding the working copy) and
rethrows.  `F i = true` injects a store fault into the i-th statement of the
transaction: the balance UPDATEs in order, then the chain INSERT, then the
COMMIT itself. -/

/-- Run the balance UPDATEs with fault injection; returns the working
balances and the next statement index, or the index of the failing
statement. -/
def runDeltas (F : Nat → Bool) : Nat → List (String × Int) → List Delta →
    Except Nat (List (String × Int) × Nat)
  | i, bal, [] => .ok (bal, i)
  | i, bal, d :: ds => if F i then .error i else runDeltas F (i + 1) (applyDelta bal d) ds

/-- The `POST /blocks` handler under fault schedule `F`.  The first component
is the committed store state after the request, the second the outcome:
`Except.error i` is the rethrown store error of statement `i`. -/
def submitBlockFault (F : Nat → Bool) (st : Ledger) (b : Block) : Ledger × Except Nat Resp :=
  if b.height != currentHeight st + 1 then
    (st, .ok (.err 400 "Invalid block height"))
  else if !conservationOk b.transactions then
    (st, .ok (.err 400 "Input and output sums do not match"))
  else if b.id != calculatedId b then
    (st, .ok (.err 400 "Invalid block ID"))
  else
    match runDeltas F 0 st.balances (blockDeltas b) with
    | .error i => (st, .error i)
    | .ok (bal, i) =>
      if F i then (st, .error i)
      else if F (i + 1) then (st, .error (i + 1))
      else ({ blocks := st.blocks ++ [b], balances := bal }, .ok (.ok "Block added"))

/-! ## Helper lemmas -/

theorem applyDelta_nil (d : Delta) : applyDelta [] d = [] := by
  cases d <;> rfl

theorem foldl_applyDelta_nil (ds : List Delta) : ds.foldl applyDelta [] = [] := by
  induction ds with
  | nil => rfl
  | cons d ds ih => simp [List.foldl_cons, applyDelta_nil, ih]

theorem applyBlockBalances_nil (b : Block) : applyBlockBalances [] b = [] :=
  foldl_applyDelta_nil _

theorem foldl_applyBlockBalances_nil (bs : List Block) :
    bs.foldl applyBlockBalances [] = [] := by
  induction bs with
  | nil => rfl
  | cons b bs ih => simp [List.foldl_cons, applyBlockBalances_nil, ih]

/-- The rollback handler always leaves the balances table empty: the replay
UPDATEs run against the just-truncated table and an UPDATE affects no rows
for an absent address. -/
theorem rollback_balances_empty (st : Ledger) (h : Int) :
    (rollback st h).1.balances = [] := by
  simp [rollback, foldl_applyBlockBalances_nil]

theorem submitBlock_balances_empty (st : Ledger) (b : Block) (h : st.balances = []) :
    (submitBlock st b).1.balances = [] := by
  unfold submitBlock
  split
  · exact h
  · split
    · exact h
    · split
      · exact h
      · simp [h, applyBlockBalances_nil]

/-- Core invariant behind C10: every reachable store state has an empty
balances table. -/
theorem reachable_balances_empty (st : Ledger) (hr : Reachable st) :
    st.balances = [] := by
  induction hr with
  | init => rfl
  | submit st b _ ih => exact submitBlock_balances_empty st b ih
  | rollbackTo st h _ _ => exact rollback_balances_empty st h

/-- The conservation loop succeeds exactly when no transaction violates
conservation; `List.find?` returns the first violator when one exists. -/
theorem conservationOk_iff_find (txs : List Transaction) :
    conservationOk txs = true ↔
      txs.find? (fun t => inputSum t != outputSum t) = none := by
  induction txs with
  | nil => simp [conservationOk]
  | cons tx txs ih =>
    by_cases h : inputSum tx != outputSum tx
    · simp [conservationOk, List.find?, h]
    · simp only [Bool.not_eq_true] at h
      simp [conservationOk, List.find?, h, ih]

theorem runDeltas_ok (F : Nat → Bool) (ds : List Delta) :
    ∀ (i : Nat) (bal bal' : List (String × Int)) (j : Nat),
      runDeltas F i bal ds = .ok (bal', j) → bal' = ds.foldl applyDelta bal := by
  induction ds with
  | nil =>
    intro i bal bal' j h
    simp [runDeltas] at h
    simp [h.1.symm]
  | cons d ds ih =>
    intro i bal bal' j h
    simp only [runDeltas] at h
    by_cases hf : F i
    · simp [hf] at h
    · simp only [hf, if_false] at h
      simpa using ih (i + 1) (applyDelta bal d) bal' j h

theorem foldl_append_strings (l : List String) :
    ∀ s : String, l.foldl (fun a b => a ++ b) s = s ++ l.foldl (fun a b => a ++ b) "" := by
  induction l with
  | nil => intro s; simp [String.append_empty]
  | cons x xs ih =>
    intro s
    simp only [List.foldl_cons]
    rw [ih (s ++ x), ih ("" ++ x), String.empty_append, String.append_assoc]

theorem foldl_strAppend (txs : List Transaction) :
    ∀ s : String, txs.foldl (fun acc tx => acc ++ tx.id) s
      = s ++ (txs.map Transaction.id).foldl (fun a b => a ++ b) "" := by
  induction txs with
  | nil => intro s; simp [String.append_empty]
  | cons tx txs ih =>
    intro s
    simp only [List.foldl_cons, List.map_cons]
    rw [ih (s ++ tx.id),
        foldl_append_strings (txs.map Transaction.id) ("" ++ tx.id),
        String.empty_append, String.append_assoc]

/-- Four-way characterization of the `POST /blocks` handler: the checks run
height, then conservation, then identity; the first failure is the sole
reported reason and leaves the store untouched; mutation happens only after
all three pass. -/
theorem submitBlock_cases (st : Ledger) (b : Block) :
    (b.height ≠ currentHeight st + 1 →
      submitBlock st b = (st, Resp.err 400 "Invalid block height"))
    ∧ (b.height = currentHeight st + 1 → conservationOk b.transactions = false →
      submitBlock st b = (st, Resp.err 400 "Input and output sums do not match"))
    ∧ (b.height = currentHeight st + 1 → conservationOk b.transactions = true →
        b.id ≠ calculatedId b →
      submitBlock st b = (st, Resp.err 400 "Invalid block ID"))
    ∧ (b.height = currentHeight st + 1 → conservationOk b.transactions = true →
        b.id = calculatedId b →
      submitBlock st b = ({ blocks := st.blocks ++ [b],
                            balances := applyBlockBalances st.balances b },
                          Resp.ok "Block added")) := by
  refine ⟨?_, ?_, ?_, ?_⟩
  · intro h
    have hc : (b.height != currentHeight st + 1) = true := by
      simpa [bne_iff_ne] using h
    simp [submitBlock, hc]
  · intro h hcons
    have hc : (b.height != currentHeight st + 1) = false := by simp [h]
    simp [submitBlock, hc, hcons]
  · intro h hcons hid
    have hc : (b.height != currentHeight st + 1) = false := by simp [h]
    have hi : (b.id != calculatedId b) = true := by simpa [bne_iff_ne] using hid
    simp [submitBlock, hc, hcons, hi]
  · intro h hcons hid
    have hc : (b.height != currentHeight st + 1) = false := by simp [h]
    have hi : (b.id != calculatedId b) = false := by simp [hid]
    simp [submitBlock, hc, hcons, hi]

/-! ## Concrete inputs used by the evaluative theorems -/

/-- The transaction of the spec's §8 concrete scenario. -/
def scenarioTx : Transaction := ⟨"tx1", [], [⟨"addr1", 10⟩]⟩

/-- The block of the spec's §8 concrete scenario, with id sha256("1"+"tx1"). -/
def scenarioBlock : Block := ⟨sha256hex ("1" ++ "tx1"), 1, [scenarioTx]⟩

/-- A value-conserving transfer of 5 from address "a" to address "b". -/
def transferTx : Transaction := ⟨"t1", [⟨"prev", 0, "a", 5⟩], [⟨"b", 5⟩]⟩

/-- A block at height 1 carrying `transferTx`, with the correct content id
sha256("1"+"t1"); it passes all three validation checks on a fresh store. -/
def transferBlock : Block := ⟨sha256hex ("1" ++ "t1"), 1, [transferTx]⟩

/-! ## Claim theorems -/

/-- C3: submitting a block whose height differs from currentHeight + 1 (the
maximum accepted height, or 0 on an empty chain) is rejected with the
InvalidHeight error and leaves both the chain and the balances unchanged;
a block with height exactly currentHeight + 1 is never rejected with that
error. -/
theorem c3_height_check (st : Ledger) (b : Block) :
    (b.height ≠ currentHeight st + 1 →
      submitBlock st b = (st, Resp.err 400 "Invalid block height"))
    ∧ (b.height = currentHeight st + 1 →
      (submitBlock st b).2 ≠ Resp.err 400 "Invalid block height") := by
  constructor
  · exact (submitBlock_cases st b).1
  · intro h
    rcases hcons : conservationOk b.transactions with _ | _
    · rw [(submitBlock_cases st b).2.1 h hcons]
      simp
    · by_cases hid : b.id = calculatedId b
      · rw [(submitBlock_cases st b).2.2.2 h hcons hid]
        simp
      · rw [(submitBlock_cases st b).2.2.1 h hcons hid]
        simp

/-- C3 witness: on the fresh store (current height 0), a block at height 5 is
rejected as InvalidHeight with the store unchanged. -/
theorem c3_height_check_ev :
    submitBlock initLedger ⟨"x", 5, []⟩
      = (initLedger, Resp.err 400 "Invalid block height") :=
  (c3_height_check initLedger ⟨"x", 5, []⟩).1 (by decide)

/-- C4: the three validation checks run in the order height, conservation,
identity; the first failure short-circuits and is the sole reported reason
(a block failing height and conservation reports only InvalidHeight), the
store is unchanged on every rejection, and mutation happens only once all
three checks pass. -/
theorem c4_validation_order (st : Ledger) (b : Block) :
    (b.height ≠ currentHeight st + 1 →
      submitBlock st b = (st, Resp.err 400 "Invalid block height"))
    ∧ (b.height = currentHeight st + 1 → conservationOk b.transactions = false →
      submitBlock st b = (st, Resp.err 400 "Input and output sums do not match"))
    ∧ (b.height = currentHeight st + 1 → conservationOk b.transactions = true →
        b.id ≠ calculatedId b →
      submitBlock st b = (st, Resp.err 400 "Invalid block ID"))
    ∧ (b.height = currentHeight st + 1 → conservationOk b.transactions = true →
        b.id = calculatedId b →
      submitBlock st b = ({ blocks := st.blocks ++ [b],
                            balances := applyBlockBalances st.balances b },
                          Resp.ok "Block added")) :=
  submitBlock_cases st b

/-- C4 witness: a block that fails both the height check (7 ≠ 1) and the
conservation check (0 ≠ 3) is reported only as InvalidHeight. -/
theorem c4_validation_order_ev :
    submitBlock initLedger ⟨"x", 7, [⟨"t", [], [⟨"c", 3⟩]⟩]⟩
        = (initLedger, Resp.err 400 "Invalid block height")
    ∧ conservationOk [⟨"t", [], [⟨"c", 3⟩]⟩] = false :=
  ⟨(c4_validation_order initLedger ⟨"x", 7, [⟨"t", [], [⟨"c", 3⟩]⟩]⟩).1 (by decide),
   by decide⟩

/-- C5: past the height check, a block containing a transaction whose input
values do not sum exactly to its output values is rejected with the
UnbalancedTransaction error at the first such transaction in block order
(`List.find?` returns the first violator), regardless of the remaining
transactions; a block whose transactions all conserve value is never
rejected with that error. -/
theorem c5_conservation (st : Ledger) (b : Block)
    (h : b.height = currentHeight st + 1) :
    (∀ tx, b.transactions.find? (fun t => inputSum t != outputSum t) = some tx →
      submitBlock st b = (st, Resp.err 400 "Input and output sums do not match"))
    ∧ (b.transactions.find? (fun t => inputSum t != outputSum t) = none →
      (submitBlock st b).2 ≠ Resp.err 400 "Input and output sums do not match") := by
  constructor
  · intro tx hfind
    have hcons : conservationOk b.transactions = false := by
      rcases hc : conservationOk b.transactions with _ | _
      · rfl
      · rw [(conservationOk_iff_find b.transactions).mp hc] at hfind
        cases hfind
    exact (submitBlock_cases st b).2.1 h hcons
  · intro hnone
    have hcons : conservationOk b.transactions = true :=
      (conservationOk_iff_find b.transactions).mpr hnone
    by_cases hid : b.id = calculatedId b
    · rw [(submitBlock_cases st b).2.2.2 h hcons hid]
      simp
    · rw [(submitBlock_cases st b).2.2.1 h hcons hid]
      simp

/-- C5 witness: a block at the correct height whose first transaction is
unbalanced (2 ≠ 9) is rejected as UnbalancedTransaction even though its
second transaction conserves value. -/
theorem c5_conservation_ev :
    submitBlock initLedger
        ⟨"x", 1, [⟨"bad", [⟨"p", 0, "a", 2⟩], [⟨"c", 9⟩]⟩, ⟨"good", [], []⟩]⟩
      = (initLedger, Resp.err 400 "Input and output sums do not match") :=
  (c5_conservation initLedger
      ⟨"x", 1, [⟨"bad", [⟨"p", 0, "a", 2⟩], [⟨"c", 9⟩]⟩, ⟨"good", [], []⟩]⟩
      (by decide)).1
    ⟨"bad", [⟨"p", 0, "a", 2⟩], [⟨"c", 9⟩]⟩ (by decide)

/-- C6: the recomputed content id is one running SHA-256 digest seeded with
the decimal string of the height and updated, in transaction order, with each
transaction id — i.e. the digest of the whole concatenation, not a combination
of per-transaction digests — and a case-sensitive mismatch with `block.id`
rejects the block as InvalidBlockId with the store unchanged. -/
theorem c6_identity_check (st : Ledger) (b : Block)
    (hh : b.height = currentHeight st + 1)
    (hcons : conservationOk b.transactions = true) :
    calculatedId b
      = sha256hex (toString b.height
          ++ (b.transactions.map Transaction.id).foldl (fun a b => a ++ b) "")
    ∧ (b.id ≠ calculatedId b →
        submitBlock st b = (st, Resp.err 400 "Invalid block ID")) := by
  constructor
  · unfold calculatedId
    rw [foldl_strAppend]
  · exact (submitBlock_cases st b).2.2.1 hh hcons

set_option maxRecDepth 10000 in
/-- C6 witness: a height-1 block with one balanced transaction and the stale
id "nope" is rejected as InvalidBlockId. -/
theorem c6_identity_check_ev :
    submitBlock initLedger ⟨"nope", 1, [⟨"t1", [], []⟩]⟩
      = (initLedger, Resp.err 400 "Invalid block ID") :=
  (c6_identity_check initLedger ⟨"nope", 1, [⟨"t1", [], []⟩]⟩
      (by decide) (by decide)).2 (by decide)

/-- C8: from any reachable store state and valid target height, rolling back
twice in succession yields the same balance snapshot as rolling back once,
and rolling back to the current height leaves every balance unchanged. -/
theorem c8_rollback_idempotent (st : Ledger) (h : Int)
    (hr : Reachable st) (_hvalid : 0 ≤ h) :
    (rollback (rollback st h).1 h).1.balances = (rollback st h).1.balances
    ∧ (rollback st (currentHeight st)).1.balances = st.balances := by
  constructor
  · rw [rollback_balances_empty, rollback_balances_empty]
  · rw [rollback_balances_empty, reachable_balances_empty st hr]

/-- C8 witness: instantiated at the fresh store and target height 0. -/
theorem c8_rollback_idempotent_ev :
    (rollback (rollback initLedger 0).1 0).1.balances
        = (rollback initLedger 0).1.balances
    ∧ (rollback initLedger (currentHeight initLedger)).1.balances
        = initLedger.balances :=
  c8_rollback_idempotent initLedger 0 Reachable.init (by decide)

/-- C9 (amended): a successful block submission replies with the body
`{status: "Block added"}` and a successful rollback replies with
`{status: "Rollback completed"}`. -/
theorem c9_success_bodies (st : Ledger) (b : Block) (h : Int) (s : String) :
    ((submitBlock st b).2 = Resp.ok s → s = "Block added")
    ∧ (rollback st h).2 = Resp.ok "Rollback completed" := by
  constructor
  · intro hs
    unfold submitBlock at hs
    split at hs
    · simp at hs
    · split at hs
      · simp at hs
      · split at hs
        · simp at hs
        · simpa using hs.symm
  · rfl

set_option maxRecDepth 10000 in
/-- C9 counterexample: a concrete successful submission replies
"Block added", not "accepted", and a concrete successful rollback replies
"Rollback completed", not "rolled back". -/
theorem c9_success_bodies_cex :
    (submitBlock initLedger transferBlock).2 = Resp.ok "Block added"
    ∧ Resp.ok "Block added" ≠ Resp.ok "accepted"
    ∧ (rollback initLedger 0).2 = Resp.ok "Rollback completed"
    ∧ Resp.ok "Rollback completed" ≠ Resp.ok "rolled back" := by
  refine ⟨by decide, by decide, rfl, by decide⟩

set_option maxRecDepth 10000 in
/-- C9 witness: the amended bodies at concrete successful calls. -/
theorem c9_success_bodies_ev :
    "Block added" = "Block added"
    ∧ (rollback initLedger 0).2 = Resp.ok "Rollback completed" :=
  ⟨(c9_success_bodies initLedger transferBlock 0 "Block added").1 (by decide),
   (c9_success_bodies initLedger transferBlock 0 "Block added").2⟩

/-- C10: no statement ever inserts a row into the balances table — block
application and rollback replay touch it only through UPDATEs, which affect
zero rows for an absent address, and rollback truncates it — so from the
empty initial state the table is empty in every reachable state and every
balance query answers AddressNotFound. -/
theorem c10_balances_never_inserted (st : Ledger) (hr : Reachable st) :
    st.balances = []
    ∧ ∀ a, getBalance st a = BalanceResp.notFound 404 "Address not found" := by
  have hb := reachable_balances_empty st hr
  refine ⟨hb, fun a => ?_⟩
  simp [getBalance, hb]

/-- C10 witness: even after the store accepts `transferBlock`, the balances
table is empty and the credited address "b" reads as AddressNotFound. -/
theorem c10_balances_never_inserted_ev :
    (submitBlock initLedger transferBlock).1.balances = []
    ∧ getBalance (submitBlock initLedger transferBlock).1 "b"
        = BalanceResp.notFound 404 "Address not found" :=
  ⟨(c10_balances_never_inserted (submitBlock initLedger transferBlock).1
      (Reachable.submit initLedger transferBlock Reachable.init)).1,
   (c10_balances_never_inserted (submitBlock initLedger transferBlock).1
      (Reachable.submit initLedger transferBlock Reachable.init)).2 "b"⟩

set_option maxRecDepth 10000 in
/-- C1: evaluation of the code at the spec's §8 concrete scenario.  The
scenario block (height 1, one transaction "tx1" with no inputs and a single
10-unit output to "addr1", id = sha256("1"+"tx1")) is rejected by the
conservation check with the UnbalancedTransaction error (input sum 0 differs
from output sum 10), the store is unchanged, and the balance query for
"addr1" answers AddressNotFound — against the claim (and the repository's
own test), which expect acceptance and balance 10. -/
theorem c1_scenario_eval :
    (submitBlock initLedger scenarioBlock).2
        = Resp.err 400 "Input and output sums do not match"
    ∧ (submitBlock initLedger scenarioBlock).1 = initLedger
    ∧ getBalance initLedger "addr1" = BalanceResp.notFound 404 "Address not found"
    ∧ getBalance (rollback initLedger 0).1 "addr1"
        = BalanceResp.notFound 404 "Address not found" := by
  refine ⟨?_, ?_, rfl, rfl⟩ <;> decide

set_option maxRecDepth 10000 in
/-- C2: evaluation of the code at a failing input for rollback correctness.
`transferBlock` (5 moved from "a" to "b") is accepted, and folding its deltas
from an all-zero start gives balance 5 for "b" and -5 for "a"; but after
`rollback(1)` — which retains the block — the code answers AddressNotFound
for both addresses, because the replay UPDATEs never insert a balance row. -/
theorem c2_rollback_fold_eval :
    (submitBlock initLedger transferBlock).2 = Resp.ok "Block added"
    ∧ specFoldBalance [transferBlock] "b" = 5
    ∧ specFoldBalance [transferBlock] "a" = -5
    ∧ getBalance (rollback (submitBlock initLedger transferBlock).1 1).1 "b"
        = BalanceResp.notFound 404 "Address not found"
    ∧ getBalance (rollback (submitBlock initLedger transferBlock).1 1).1 "a"
        = BalanceResp.notFound 404 "Address not found" := by
  refine ⟨by decide, by decide, by decide, ?_, ?_⟩ <;> decide

/-- C7: the apply path is atomic under store faults.  For every fault
schedule, a fault in any statement of the transaction (a balance UPDATE, the
chain INSERT, or the COMMIT) leaves the committed store state exactly as it
was before the apply and propagates the store error to the caller; a
validation rejection also leaves the store unchanged; and a successful
submission commits precisely the full delta application plus the appended
chain entry — never a partial state. -/
theorem c7_apply_atomicity (F : Nat → Bool) (st st' : Ledger) (b : Block)
    (r : Except Nat Resp) (heq : submitBlockFault F st b = (st', r)) :
    (∀ e, r = Except.error e → st' = st)
    ∧ (r = Except.ok (Resp.ok "Block added") →
        st' = { blocks := st.blocks ++ [b],
                balances := applyBlockBalances st.balances b })
    ∧ (∀ c m, r = Except.ok (Resp.err c m) → st' = st) := by
  unfold submitBlockFault at heq
  split at heq
  · injection heq with h1 h2; subst h1; subst h2
    exact ⟨fun _ _ => rfl, fun hok => by simp at hok, fun _ _ _ => rfl⟩
  · split at heq
    · injection heq with h1 h2; subst h1; subst h2
      exact ⟨fun _ _ => rfl, fun hok => by simp at hok, fun _ _ _ => rfl⟩
    · split at heq
      · injection heq with h1 h2; subst h1; subst h2
        exact ⟨fun _ _ => rfl, fun hok => by simp at hok, fun _ _ _ => rfl⟩
      · split at heq
        · injection heq with h1 h2; subst h1; subst h2
          exact ⟨fun _ _ => rfl, fun hok => by simp at hok, fun _ _ hok => by simp at hok⟩
        · rename_i bal i hrun
          split at heq
          · injection heq with h1 h2; subst h1; subst h2
            exact ⟨fun _ _ => rfl, fun hok => by simp at hok, fun _ _ hok => by simp at hok⟩
          · split at heq
            · injection heq with h1 h2; subst h1; subst h2
              exact ⟨fun _ _ => rfl, fun hok => by simp at hok, fun _ _ hok => by simp at hok⟩
            · injection heq with h1 h2; subst h1; subst h2
              refine ⟨fun _ he => by simp at he, fun _ => ?_, fun _ _ hok => by simp at hok⟩
              have hb := runDeltas_ok F (blockDeltas b) 0 st.balances bal i hrun
              simp [applyBlockBalances, hb]

set_option maxRecDepth 10000 in
/-- C7 witness: with a store fault injected into statement 1 (the credit
UPDATE of `transferBlock`), the submission returns the rethrown error and
the committed state is the pre-apply state. -/
theorem c7_apply_atomicity_ev :
    submitBlockFault (fun i => i == 1) initLedger transferBlock
        = (initLedger, Except.error 1)
    ∧ initLedger = initLedger :=
  have heq : submitBlockFault (fun i => i == 1) initLedger transferBlock
      = (initLedger, Except.error 1) := rfl
  ⟨heq, (c7_apply_atomicity (fun i => i == 1) initLedger initLedger transferBlock
      (Except.error 1) heq).1 1 rfl⟩

end LedgerService
